import Mathlib

/-!
# Verification of the agentracer-node interception and usage-accounting engine

A shallow embedding of the agentracer SDK (src/index.ts, src/openai.ts,
src/anthropic.ts, src/gemini.ts).  Asynchronous JS code is modelled by
explicit state passing: the observable effects (HTTP POSTs issued by the
telemetry emitter) are collected in a list of `Request`s, JS objects with
optional / nullable fields become structures with `Option` fields, thrown
JS errors become `Except` values, and async generators over provider
streams become functions on lists of events.
-/

namespace Agentracer

/-- A JSON value, as it appears in a serialized telemetry payload. -/
inductive JVal where
  | str (s : String)
  | num (n : Nat)
  | bool (b : Bool)
  | null
deriving DecidableEq, Repr

/-- A serialized JSON object body: ordered key/value pairs.  Keys whose JS
value is `undefined` are absent (JSON.stringify drops them); `null` values
are present as `JVal.null`. -/
abbrev Payload := List (String × JVal)

/-- Value of a key in a payload, if present. -/
def lookupKey (p : Payload) (k : String) : Option JVal :=
  (p.find? (fun kv => kv.fst = k)).map Prod.snd

/-- One HTTP POST issued by the SDK: target path and JSON body. -/
structure Request where
  path : String
  payload : Payload
deriving DecidableEq, Repr

/-- The bodies of all requests in `reqs` that were POSTed to `path`. -/
def requestsTo (path : String) (reqs : List Request) : List Payload :=
  (reqs.filter (fun r => r.path = path)).map Request.payload

/-! ## Config store (src/index.ts lines 3-31) -/

/-- The process-wide configuration record.  In the source the optional
fields always hold concrete values (they are seeded with defaults before
any `init` call), so they are plain fields here. -/
structure AgentracerConfig where
  trackerApiKey : String
  projectId : String
  environment : String
  host : String
  debug : Bool
  enabled : Bool
deriving DecidableEq, Repr

/-- The built-in defaults the module-level `config` variable starts with. -/
def defaultConfig : AgentracerConfig :=
  { trackerApiKey := ""
    projectId := ""
    environment := "production"
    host := "https://api.agentracer.dev"
    debug := false
    enabled := true }

/-- The options object accepted by `init`.  `trackerApiKey` and
`projectId` are required; an `Option` field is `none` when the key is
absent from the object (so the JS spread does not touch it). -/
structure InitOptions where
  trackerApiKey : String
  projectId : String
  environment : Option String := none
  host : Option String := none
  debug : Option Bool := none
  enabled : Option Bool := none
deriving DecidableEq, Repr

/-- `init(options)`: `config = { ...config, ...options }` — keys present in
`options` override, absent keys keep the previous value. -/
def init (cfg : AgentracerConfig) (o : InitOptions) : AgentracerConfig :=
  { trackerApiKey := o.trackerApiKey
    projectId := o.projectId
    environment := o.environment.getD cfg.environment
    host := o.host.getD cfg.host
    debug := o.debug.getD cfg.debug
    enabled := o.enabled.getD cfg.enabled }

/-- `getConfig()` returns the current snapshot. -/
def getConfig (cfg : AgentracerConfig) : AgentracerConfig := cfg

/-! ## Telemetry emitter (src/index.ts lines 33-51) -/

/-- Outcome of the underlying `fetch` POST: the promise either resolves
(with some HTTP status — possibly non-2xx) or rejects (network error, or
the 2-second `AbortSignal.timeout` firing). -/
inductive FetchOutcome where
  | resolved (status : Nat)
  | rejected (msg : String)
deriving DecidableEq, Repr

/-- `fetch` as seen by the caller: a rejected promise is a thrown error. -/
def fetchResult : FetchOutcome → Except String Nat
  | .resolved st => .ok st
  | .rejected m => .error m

/-- `sendTelemetry(payload)`: no-op when `enabled` is false, otherwise one
POST to `{host}/api/ingest` inside a try/catch that discards every
failure.  Returns the promise result seen by the caller together with the
list of POSTs that were attempted. -/
def sendTelemetry (cfg : AgentracerConfig) (payload : Payload)
    (outcome : FetchOutcome) : Except String Unit × List Request :=
  if cfg.enabled = false then (.ok (), [])
  else
    match fetchResult outcome with
    | .ok _status => (.ok (), [⟨"/api/ingest", payload⟩])
    | .error _ => (.ok (), [⟨"/api/ingest", payload⟩])

/-! ## OpenAI streaming usage accumulator (src/openai.ts lines 22-47) -/

/-- `usage.prompt_tokens_details` on an OpenAI response. -/
structure PromptTokensDetails where
  cached_tokens : Option Nat := none
deriving DecidableEq, Repr

/-- The `usage` object of an OpenAI chunk or response. -/
structure OpenAIUsage where
  prompt_tokens : Option Nat := none
  completion_tokens : Option Nat := none
  prompt_tokens_details : Option PromptTokensDetails := none
deriving DecidableEq, Repr

/-- One chunk of an OpenAI streaming response.  `delta` stands for the
content fields the accumulator never inspects. -/
structure OpenAIChunk where
  usage : Option OpenAIUsage := none
  delta : String := ""
deriving DecidableEq, Repr

/-- The per-chunk body of `wrapOpenAIStream`'s loop:
`if (chunk.usage) { inputTokens = chunk.usage.prompt_tokens ?? 0;
outputTokens = chunk.usage.completion_tokens ?? 0; }`. -/
def openaiStep (st : Nat × Nat) (c : OpenAIChunk) : Nat × Nat :=
  match c.usage with
  | some u => (u.prompt_tokens.getD 0, u.completion_tokens.getD 0)
  | none => st

/-- The generator loop of `wrapOpenAIStream`: consumes the chunk list,
yields each chunk onward, and returns the final accumulator values. -/
def wrapOpenAIStreamGo (inputTokens outputTokens : Nat) :
    List OpenAIChunk → List OpenAIChunk × Nat × Nat
  | [] => ([], inputTokens, outputTokens)
  | c :: rest =>
      let st := openaiStep (inputTokens, outputTokens) c
      let r := wrapOpenAIStreamGo st.1 st.2 rest
      (c :: r.1, r.2)

/-! ## JS errors and the manual `track` entry point (index.ts lines 61-122,
as given in the current version of src/index.ts) -/

/-- A thrown JS error: `ctorName` is `err?.constructor?.name` (absent when
the thrown value has no recognizable constructor). -/
structure JSError where
  ctorName : Option String := none
  msg : String := ""
deriving DecidableEq, Repr

/-- The options object of `track(options)`.  `Option` fields are `none`
when the caller omitted them (JS `undefined`). -/
structure TrackOptions where
  model : String
  inputTokens : Nat
  outputTokens : Nat
  latencyMs : Nat
  featureTag : Option String := none
  environment : Option String := none
  provider : Option String := none
  cachedTokens : Option Nat := none
  success : Option Bool := none
  errorType : Option String := none
  endUserId : Option String := none
  runId : Option String := none
  stepIndex : Option Nat := none
deriving DecidableEq, Repr

/-- An `AgentRun` object: identity fields fixed at construction plus the
mutable `stepCounter` (pre-incremented by `_nextStep`). -/
structure ActiveRun where
  runId : String
  runName : Option String := none
  featureTag : String := "unknown"
  endUserId : Option String := none
  stepCounter : Nat := 0
deriving DecidableEq, Repr

/-- The state an SDK operation runs in: the config singleton, the two
`AsyncLocalStorage` slots (`featureTagStorage`, `runStorage`), and the
requests POSTed so far. -/
structure SdkState where
  config : AgentracerConfig
  ambientTag : Option String := none
  activeRun : Option ActiveRun := none
  sent : List Request := []
deriving DecidableEq, Repr

/-- State effect of `sendTelemetry` / `sendRunApi`: both skip entirely
when `enabled` is false, otherwise POST once to `path`, swallowing any
failure of the `fetch` itself (the `outcome` never influences anything
observable). -/
def emit (s : SdkState) (outcome : FetchOutcome) (path : String)
    (payload : Payload) : SdkState :=
  if s.config.enabled = false then s
  else
    match fetchResult outcome with
    | .ok _status => { s with sent := s.sent ++ [⟨path, payload⟩] }
    | .error _ => { s with sent := s.sent ++ [⟨path, payload⟩] }

/-- The `/api/runs/step` body built inside `track` when a step is
auto-attributed to the active run (index.ts lines 86-100).
`error_type: options.errorType ?? null` is an explicit `null`. -/
def trackStepPayload (cfg : AgentracerConfig) (run : ActiveRun)
    (stepIndex : Nat) (o : TrackOptions) : Payload :=
  [("project_id", .str cfg.projectId),
   ("run_id", .str run.runId),
   ("step_index", .num stepIndex),
   ("step_type", .str "llm_call"),
   ("model", .str o.model),
   ("provider", .str (o.provider.getD "custom")),
   ("input_tokens", .num o.inputTokens),
   ("output_tokens", .num o.outputTokens),
   ("cached_tokens", .num (o.cachedTokens.getD 0)),
   ("cost_usd", .num 0),
   ("latency_ms", .num o.latencyMs),
   ("success", .bool (o.success.getD true)),
   ("error_type", match o.errorType with | some e => .str e | none => .null)]

/-- The primary `/api/ingest` body built by `track` (index.ts lines
103-119): fixed keys first, then `error_type` / `end_user_id` /
`run_id` / `step_index` only when the corresponding value is non-null. -/
def trackIngestPayload (cfg : AgentracerConfig) (currentTag : Option String)
    (o : TrackOptions) (runId : Option String) (stepIndex : Option Nat) :
    Payload :=
  [("project_id", .str cfg.projectId),
   ("provider", .str (o.provider.getD "custom")),
   ("model", .str o.model),
   ("feature_tag", .str (o.featureTag.getD (currentTag.getD "unknown"))),
   ("input_tokens", .num o.inputTokens),
   ("output_tokens", .num o.outputTokens),
   ("cached_tokens", .num (o.cachedTokens.getD 0)),
   ("latency_ms", .num o.latencyMs),
   ("success", .bool (o.success.getD true)),
   ("environment", .str (o.environment.getD cfg.environment))]
  ++ (match o.errorType with | some e => [("error_type", .str e)] | none => [])
  ++ (match o.endUserId with | some u => [("end_user_id", .str u)] | none => [])
  ++ (match runId with | some r => [("run_id", .str r)] | none => [])
  ++ (match stepIndex with | some i => [("step_index", .num i)] | none => [])

/-- `track(options)` from the current src/index.ts: read the ambient tag,
auto-attribute to the active run when one is present and no explicit
`runId` was supplied (allocating the next step index and firing the
`/api/runs/step` side request), then send the primary payload. -/
def track (s : SdkState) (outcome : FetchOutcome) (o : TrackOptions) :
    SdkState :=
  let currentTag := s.ambientTag
  match s.activeRun, o.runId with
  | some run, none =>
      let stepIndex := run.stepCounter + 1
      let s₁ := { s with activeRun := some { run with stepCounter := stepIndex } }
      let s₂ := emit s₁ outcome "/api/runs/step"
        (trackStepPayload s.config run stepIndex o)
      emit s₂ outcome "/api/ingest"
        (trackIngestPayload s.config currentTag o (some run.runId) (some stepIndex))
  | _, _ =>
      emit s outcome "/api/ingest"
        (trackIngestPayload s.config currentTag o o.runId o.stepIndex)

/-- `wrapOpenAIStream(stream, model, featureTag, start)`: yield every
chunk onward, then invoke `track` exactly once with the accumulated
counts.  Returns the yielded chunks and the `track` invocations made. -/
def wrapOpenAIStream (chunks : List OpenAIChunk) (model featureTag : String)
    (latency : Nat) : List OpenAIChunk × List TrackOptions :=
  let r := wrapOpenAIStreamGo 0 0 chunks
  (r.1,
   [{ model := model
      inputTokens := r.2.1
      outputTokens := r.2.2
      latencyMs := latency
      featureTag := some featureTag
      provider := some "openai" }])

/-! ## Anthropic streaming usage accumulator (src/anthropic.ts lines
18-47) -/

/-- `message.usage` on an Anthropic `message_start` event. -/
structure AnthropicMsgUsage where
  input_tokens : Option Nat := none
deriving DecidableEq, Repr

/-- The `message` object of an Anthropic `message_start` event. -/
structure AnthropicMessage where
  usage : Option AnthropicMsgUsage := none
deriving DecidableEq, Repr

/-- The top-level `usage` object of an Anthropic `message_delta` event. -/
structure AnthropicDeltaUsage where
  output_tokens : Option Nat := none
deriving DecidableEq, Repr

/-- One typed Anthropic streaming event.  `content` stands for the event
fields the accumulator never inspects. -/
structure AnthropicEvent where
  type : String
  message : Option AnthropicMessage := none
  usage : Option AnthropicDeltaUsage := none
  content : String := ""
deriving DecidableEq, Repr

/-- The per-event body of `wrapAnthropicStream`'s loop: on a
`message_start` with `event.message?.usage` present take
`input_tokens ?? 0`; on a `message_delta` with `event.usage` present take
`output_tokens ?? 0`. -/
def anthropicStep (st : Nat × Nat) (e : AnthropicEvent) : Nat × Nat :=
  let st₁ :=
    if e.type = "message_start" then
      match e.message.bind AnthropicMessage.usage with
      | some u => (u.input_tokens.getD 0, st.2)
      | none => st
    else st
  if e.type = "message_delta" then
    match e.usage with
    | some u => (st₁.1, u.output_tokens.getD 0)
    | none => st₁
  else st₁

/-- The generator loop of `wrapAnthropicStream`: consumes the event list,
yields each event onward, and returns the final accumulator values. -/
def wrapAnthropicStreamGo (inputTokens outputTokens : Nat) :
    List AnthropicEvent → List AnthropicEvent × Nat × Nat
  | [] => ([], inputTokens, outputTokens)
  | e :: rest =>
      let st := anthropicStep (inputTokens, outputTokens) e
      let r := wrapAnthropicStreamGo st.1 st.2 rest
      (e :: r.1, r.2)

/-- `wrapAnthropicStream(stream, model, featureTag, start)`: yield every
event onward, then build the single `sendTelemetry` payload with the
accumulated counts.  Returns the yielded events and the ingest payloads
POSTed (one, when `enabled`). -/
def wrapAnthropicStream (cfg : AgentracerConfig)
    (events : List AnthropicEvent) (model featureTag : String)
    (latency : Nat) (outcome : FetchOutcome) :
    List AnthropicEvent × List Request :=
  let r := wrapAnthropicStreamGo 0 0 events
  (r.1,
   (sendTelemetry cfg
     [("project_id", .str cfg.projectId),
      ("provider", .str "anthropic"),
      ("model", .str model),
      ("feature_tag", .str featureTag),
      ("input_tokens", .num r.2.1),
      ("output_tokens", .num r.2.2),
      ("latency_ms", .num latency),
      ("environment", .str cfg.environment)] outcome).2)

/-! ## OpenAI adapter (src/openai.ts lines 49-111, current version) -/

/-- The caller-supplied `stream_options` object.  `other` stands for any
caller-supplied field besides `include_usage`. -/
structure StreamOptions where
  include_usage : Option Bool := none
  other : Option String := none
deriving DecidableEq, Repr

/-- The parameters object of `chat.completions.create`.  `messages`
stands for the remaining caller-supplied fields the adapter never
touches; `feature_tag := none` models the key being absent. -/
structure OpenAIParams where
  model : String
  feature_tag : Option String := none
  stream : Bool := false
  stream_options : Option StreamOptions := none
  messages : String := ""
deriving DecidableEq, Repr

/-- A non-streaming OpenAI response.  `content` stands for the response
body the adapter returns untouched. -/
structure OpenAIResponse where
  usage : Option OpenAIUsage := none
  content : String := ""
deriving DecidableEq, Repr

/-- `params.feature_tag ?? featureTagStorage.getStore() ?? "unknown"`
(`??` falls through only on null/undefined, so an explicit empty string
is kept). -/
def openaiResolvedTag (params : OpenAIParams) (ambient : Option String) :
    String :=
  match params.feature_tag with
  | some t => t
  | none => ambient.getD "unknown"

/-- `cleanParams.stream_options = { ...cleanParams.stream_options,
include_usage: true }`: spreading `undefined` contributes nothing, and
`include_usage` is set to `true` last, overwriting any spread value. -/
def mergedStreamOptions : Option StreamOptions → StreamOptions
  | none => { include_usage := some true }
  | some so => { so with include_usage := some true }

/-- The parameters the adapter forwards to the real client:
`const { feature_tag, ...cleanParams } = params` always removes the
`feature_tag` key, and on the streaming path `stream_options` is
additionally replaced by the merge above. -/
def openaiForwarded (params : OpenAIParams) : OpenAIParams :=
  let clean := { params with feature_tag := none }
  if clean.stream then
    { clean with stream_options := some (mergedStreamOptions clean.stream_options) }
  else clean

/-- The `create` interception of `createOpenAIProxy` (the telemetry of
the non-streaming path; on the streaming path the real stream is wrapped
by `wrapOpenAIStream`, modelled separately, and `create` itself emits
nothing).  `clientResult` is the promise of the real
`client.chat.completions.create(cleanParams)`; the triple returned is the
state after telemetry, the result the caller sees, and the parameters
forwarded to the real client. -/
def openaiChatCreate (s : SdkState) (outcome : FetchOutcome)
    (params : OpenAIParams) (clientResult : Except JSError OpenAIResponse)
    (latency : Nat) :
    SdkState × Except JSError OpenAIResponse × OpenAIParams :=
  let featureTag := openaiResolvedTag params s.ambientTag
  let forwarded := openaiForwarded params
  if params.stream then (s, clientResult, forwarded)
  else
    match clientResult with
    | .error err =>
        (track s outcome
          { model := params.model
            inputTokens := 0
            outputTokens := 0
            latencyMs := latency
            featureTag := some featureTag
            provider := some "openai"
            success := some false
            errorType := some (err.ctorName.getD "Error") },
         .error err, forwarded)
    | .ok response =>
        (track s outcome
          { model := params.model
            inputTokens := (response.usage.bind OpenAIUsage.prompt_tokens).getD 0
            outputTokens := (response.usage.bind OpenAIUsage.completion_tokens).getD 0
            cachedTokens :=
              ((response.usage.bind OpenAIUsage.prompt_tokens_details).bind
                PromptTokensDetails.cached_tokens).getD 0
            latencyMs := latency
            featureTag := some featureTag
            provider := some "openai" },
         .ok response, forwarded)

/-! ## Gemini adapter (src/gemini.ts lines 24-131) -/

/-- The parameters object of `generateContent`.  `contents` stands for
the rest of the request the adapter never touches.  The adapter only ever
receives object (non-array) parameters here, so the
`typeof params === "object" && !Array.isArray(params)` guard of
`extractFeatureTag` always holds in this model. -/
structure GeminiParams where
  feature_tag : Option String := none
  contents : String := ""
deriving DecidableEq, Repr

/-- `usageMetadata` on a Gemini response chunk. -/
structure GeminiUsageMetadata where
  promptTokenCount : Option Nat := none
  candidatesTokenCount : Option Nat := none
  cachedContentTokenCount : Option Nat := none
deriving DecidableEq, Repr

/-- The `response` object inside a Gemini `generateContent` result. -/
structure GeminiResponse where
  usageMetadata : Option GeminiUsageMetadata := none
  text : String := ""
deriving DecidableEq, Repr

/-- The result of the real `generateContent`: the adapter reads
`result.response?.usageMetadata` and returns `result` untouched. -/
structure GeminiResult where
  response : Option GeminiResponse := none
  body : String := ""
deriving DecidableEq, Repr

/-- `extractFeatureTag(params)`: when `params.feature_tag` is truthy (for
a string: present and non-empty) the tag is taken from it and the key is
stripped from the forwarded object; otherwise the ambient tag (or
"unknown") is used and `params` is returned unchanged. -/
def extractFeatureTag (params : GeminiParams) (ambient : Option String) :
    String × GeminiParams :=
  match params.feature_tag with
  | some t =>
      if t = "" then (ambient.getD "unknown", params)
      else (t, { params with feature_tag := none })
  | none => (ambient.getD "unknown", params)

/-- The `generateContent` interception of `createTrackedModel`:
extract/strip the feature tag, delegate, emit telemetry via `track`
(failure path: zero counts, `success:false`, classified error, then
re-throw; success path: usage read from `result.response?.usageMetadata`),
return the result untouched.  The triple is the state after telemetry,
the result the caller sees, and the parameters forwarded to the real
model. -/
def geminiGenerateContent (s : SdkState) (outcome : FetchOutcome)
    (modelName : String) (params : GeminiParams)
    (clientResult : Except JSError GeminiResult) (latency : Nat) :
    SdkState × Except JSError GeminiResult × GeminiParams :=
  let r := extractFeatureTag params s.ambientTag
  match clientResult with
  | .error err =>
      (track s outcome
        { model := modelName
          inputTokens := 0
          outputTokens := 0
          latencyMs := latency
          featureTag := some r.1
          provider := some "gemini"
          success := some false
          errorType := some (err.ctorName.getD "Error") },
       .error err, r.2)
  | .ok result =>
      let usage := result.response.bind GeminiResponse.usageMetadata
      (track s outcome
        { model := modelName
          inputTokens := (usage.bind GeminiUsageMetadata.promptTokenCount).getD 0
          outputTokens := (usage.bind GeminiUsageMetadata.candidatesTokenCount).getD 0
          cachedTokens := (usage.bind GeminiUsageMetadata.cachedContentTokenCount).getD 0
          latencyMs := latency
          featureTag := some r.1
          provider := some "gemini" },
       .ok result, r.2)

/-! ## AgentRun (src/index.ts lines 141-200, current version) -/

/-- The `/api/runs/start` body (undefined `run_name` / `end_user_id` are
dropped by JSON.stringify). -/
def runStartPayload (cfg : AgentracerConfig) (run : ActiveRun) : Payload :=
  [("project_id", .str cfg.projectId), ("run_id", .str run.runId)]
  ++ (match run.runName with | some n => [("run_name", .str n)] | none => [])
  ++ [("feature_tag", .str run.featureTag)]
  ++ (match run.endUserId with | some u => [("end_user_id", .str u)] | none => [])

/-- `runStorage.run(this, () => featureTagStorage.run(this.featureTag,
fn))`: both ambient slots hold the run's values while `body` executes and
revert to their previous bindings afterwards. -/
def withRunScopes (run : ActiveRun) {α : Type}
    (body : SdkState → SdkState × Except JSError α) (s : SdkState) :
    SdkState × Except JSError α :=
  let s₁ := { s with activeRun := some run, ambientTag := some run.featureTag }
  let r := body s₁
  ({ r.1 with activeRun := s.activeRun, ambientTag := s.ambientTag }, r.2)

/-- `AgentRun.execute(fn)`: fire the `run-start` signal, run `fn` inside
the nested ambient scopes, then fire `run-end` with status "completed" on
success, or with status "failed" plus the error classification before
re-throwing the original error. -/
def executeRun (run : ActiveRun) {α : Type} (outcome : FetchOutcome)
    (body : SdkState → SdkState × Except JSError α) (s : SdkState) :
    SdkState × Except JSError α :=
  let s₁ := emit s outcome "/api/runs/start" (runStartPayload s.config run)
  let r := withRunScopes run body s₁
  match r.2 with
  | .ok v =>
      (emit r.1 outcome "/api/runs/end"
        [("project_id", .str s.config.projectId),
         ("run_id", .str run.runId),
         ("status", .str "completed")], .ok v)
  | .error e =>
      (emit r.1 outcome "/api/runs/end"
        [("project_id", .str s.config.projectId),
         ("run_id", .str run.runId),
         ("status", .str "failed"),
         ("error_type", .str (e.ctorName.getD "Error"))], .error e)

/-! ## Spec-side definitions

These follow the spec's words rather than the source; theorems compare the
source-derived functions above against them. -/

/-- Spec §4.6 (OpenAI row): the `usage` of the last chunk whose `usage`
field is populated, if any. -/
def specLastPopulatedUsage : List OpenAIChunk → Option OpenAIUsage
  | [] => none
  | c :: rest =>
      match specLastPopulatedUsage rest with
      | some u => some u
      | none => c.usage

/-- Spec §4.6 (OpenAI row): final token counts are `prompt_tokens` /
`completion_tokens` of the last populated `usage`, zero-filled when
missing. -/
def specOpenAITokens (chunks : List OpenAIChunk) : Nat × Nat :=
  match specLastPopulatedUsage chunks with
  | some u => (u.prompt_tokens.getD 0, u.completion_tokens.getD 0)
  | none => (0, 0)

/-- Spec §4.6 (Anthropic row): the `message.usage` of the last
`message_start` event carrying one, if any. -/
def specLastStartUsage : List AnthropicEvent → Option AnthropicMsgUsage
  | [] => none
  | e :: rest =>
      match specLastStartUsage rest with
      | some u => some u
      | none =>
          if e.type = "message_start" then e.message.bind AnthropicMessage.usage
          else none

/-- Spec §4.6 (Anthropic row): the top-level `usage` of the last
`message_delta` event carrying one, if any. -/
def specLastDeltaUsage : List AnthropicEvent → Option AnthropicDeltaUsage
  | [] => none
  | e :: rest =>
      match specLastDeltaUsage rest with
      | some u => some u
      | none => if e.type = "message_delta" then e.usage else none

/-- Spec §4.6 (Anthropic row): final token counts, zero-filled. -/
def specAnthropicTokens (events : List AnthropicEvent) : Nat × Nat :=
  ((specLastStartUsage events).elim 0 (fun u => u.input_tokens.getD 0),
   (specLastDeltaUsage events).elim 0 (fun u => u.output_tokens.getD 0))

/-- Spec §8 (config property): the value a field was last supplied with
across a sequence of `init` calls, if it was ever supplied. -/
def specLastSupplied {α : Type} (f : InitOptions → Option α) :
    List InitOptions → Option α
  | [] => none
  | o :: rest =>
      match specLastSupplied f rest with
      | some v => some v
      | none => f o

/-! ## Characterization lemmas -/

lemma wrapOpenAIStreamGo_eq (chunks : List OpenAIChunk) :
    ∀ i o : Nat, wrapOpenAIStreamGo i o chunks =
      (chunks,
       match specLastPopulatedUsage chunks with
       | some u => (u.prompt_tokens.getD 0, u.completion_tokens.getD 0)
       | none => (i, o)) := by
  induction chunks with
  | nil => intro i o; rfl
  | cons c rest ih =>
      intro i o
      simp only [wrapOpenAIStreamGo, ih, specLastPopulatedUsage]
      cases h : specLastPopulatedUsage rest with
      | some u => simp
      | none => cases hc : c.usage <;> simp [openaiStep, hc]

lemma wrapAnthropicStreamGo_eq (events : List AnthropicEvent) :
    ∀ i o : Nat, wrapAnthropicStreamGo i o events =
      (events,
       (specLastStartUsage events).elim i (fun u => u.input_tokens.getD 0),
       (specLastDeltaUsage events).elim o (fun u => u.output_tokens.getD 0)) := by
  induction events with
  | nil => intro i o; rfl
  | cons e rest ih =>
      intro i o
      simp only [wrapAnthropicStreamGo, ih, specLastStartUsage,
        specLastDeltaUsage, anthropicStep]
      by_cases hs : e.type = "message_start"
      · have hd : ¬ e.type = "message_delta" := by simp [hs]
        cases hu : e.message.bind AnthropicMessage.usage <;>
          cases h1 : specLastStartUsage rest <;>
          cases h2 : specLastDeltaUsage rest <;>
          simp [hs, hd, hu, h1, h2]
      · by_cases hd : e.type = "message_delta"
        · cases hu : e.usage <;>
            cases h1 : specLastStartUsage rest <;>
            cases h2 : specLastDeltaUsage rest <;>
            simp [hs, hd, hu, h1, h2]
        · cases h1 : specLastStartUsage rest <;>
            cases h2 : specLastDeltaUsage rest <;>
            simp [hs, hd, h1, h2]

lemma foldl_init_lastSupplied {α : Type} (g : AgentracerConfig → α)
    (f : InitOptions → Option α)
    (hg : ∀ cfg o, g (init cfg o) = (f o).getD (g cfg)) :
    ∀ (calls : List InitOptions) (cfg : AgentracerConfig),
      g (calls.foldl init cfg) = (specLastSupplied f calls).getD (g cfg) := by
  intro calls
  induction calls with
  | nil => intro cfg; rfl
  | cons o rest ih =>
      intro cfg
      simp only [List.foldl_cons, ih, hg, specLastSupplied]
      cases specLastSupplied f rest <;> simp

/-! ## Claim theorems -/

/-- C1: For every OpenAI streaming call, the wrapped stream re-yields
every chunk of the underlying stream unmodified and in original order,
and after full consumption exactly one telemetry event is emitted whose
`input_tokens` and `output_tokens` come from the last chunk whose `usage`
field is populated (`prompt_tokens` and `completion_tokens`
respectively); in particular, for the chunk sequence
`[{usage:null}, {usage:null},
{usage:{prompt_tokens:15, completion_tokens:25}}]` exactly one event
fires with `input_tokens:15` and `output_tokens:25`. -/
theorem C1_openai_stream_passthrough_last_usage
    (chunks : List OpenAIChunk) (model tag : String) (latency : Nat) :
    (wrapOpenAIStream chunks model tag latency).1 = chunks ∧
    (wrapOpenAIStream chunks model tag latency).2.length = 1 ∧
    (wrapOpenAIStream chunks model tag latency).2.map
        (fun t => (t.inputTokens, t.outputTokens)) = [specOpenAITokens chunks] ∧
    (wrapOpenAIStream [{ }, { },
        { usage := some { prompt_tokens := some 15, completion_tokens := some 25 } }]
        model tag latency).2.map
        (fun t => (t.inputTokens, t.outputTokens)) = [(15, 25)] ∧
    ((wrapOpenAIStream [{ }, { },
        { usage := some { prompt_tokens := some 15, completion_tokens := some 25 } }]
        "gpt-4o" "chat" 5).2.foldl
        (fun s o => track s (.resolved 200) o)
        { config := defaultConfig }).sent.map
        (fun r => (r.path, lookupKey r.payload "input_tokens",
                   lookupKey r.payload "output_tokens")) =
      [("/api/ingest", some (.num 15), some (.num 25))] := by
  refine ⟨?_, ?_, ?_, ?_, ?_⟩
  · simp [wrapOpenAIStream, wrapOpenAIStreamGo_eq]
  · simp [wrapOpenAIStream]
  · simp only [wrapOpenAIStream, wrapOpenAIStreamGo_eq, specOpenAITokens,
      List.map]
  · rfl
  · rfl

lemma specLastPopulatedUsage_eq_none (chunks : List OpenAIChunk)
    (h : ∀ c ∈ chunks, c.usage = none) :
    specLastPopulatedUsage chunks = none := by
  induction chunks with
  | nil => rfl
  | cons c rest ih =>
      simp only [specLastPopulatedUsage,
        ih (fun x hx => h x (List.mem_cons_of_mem _ hx))]
      exact h c (List.mem_cons_self _ _)

lemma specLastStartUsage_eq_none (events : List AnthropicEvent)
    (h : ∀ e ∈ events, e.message = none) :
    specLastStartUsage events = none := by
  induction events with
  | nil => rfl
  | cons e rest ih =>
      simp only [specLastStartUsage,
        ih (fun x hx => h x (List.mem_cons_of_mem _ hx))]
      simp [h e (List.mem_cons_self _ _)]

lemma specLastDeltaUsage_eq_none (events : List AnthropicEvent)
    (h : ∀ e ∈ events, e.usage = none) :
    specLastDeltaUsage events = none := by
  induction events with
  | nil => rfl
  | cons e rest ih =>
      simp only [specLastDeltaUsage,
        ih (fun x hx => h x (List.mem_cons_of_mem _ hx))]
      simp [h e (List.mem_cons_self _ _)]

/-- C6: For every Anthropic streaming call, `input_tokens` is taken from
the `message_start` event's `message.usage.input_tokens` and
`output_tokens` from the `message_delta` event's `usage.output_tokens`
(later events overwrite earlier values within the same stream), every
event is re-yielded to the consumer unmodified and in order, and exactly
one telemetry event fires after full consumption; for the sequence
`[message_start(usage.input_tokens=100), content_block_delta×2,
message_delta(usage.output_tokens=40), message_stop]`, the final
telemetry has `input_tokens:100` and `output_tokens:40` and all five
events are re-yielded. -/
theorem C6_anthropic_stream_passthrough_usage
    (events : List AnthropicEvent) (cfg : AgentracerConfig)
    (model tag : String) (latency : Nat) (outcome : FetchOutcome)
    (hE : cfg.enabled = true) :
    (wrapAnthropicStream cfg events model tag latency outcome).1 = events ∧
    (wrapAnthropicStream cfg events model tag latency outcome).2.map
        (fun r => (r.path, lookupKey r.payload "input_tokens",
                   lookupKey r.payload "output_tokens")) =
      [("/api/ingest", some (.num (specAnthropicTokens events).1),
        some (.num (specAnthropicTokens events).2))] ∧
    (wrapAnthropicStream defaultConfig
        [{ type := "message_start",
           message := some { usage := some { input_tokens := some 100 } } },
         { type := "content_block_delta" },
         { type := "content_block_delta" },
         { type := "message_delta",
           usage := some { output_tokens := some 40 } },
         { type := "message_stop" }]
        "claude" "chat" 7 (.resolved 200)).1 =
      [{ type := "message_start",
         message := some { usage := some { input_tokens := some 100 } } },
       { type := "content_block_delta" },
       { type := "content_block_delta" },
       { type := "message_delta",
         usage := some { output_tokens := some 40 } },
       { type := "message_stop" }] ∧
    (wrapAnthropicStream defaultConfig
        [{ type := "message_start",
           message := some { usage := some { input_tokens := some 100 } } },
         { type := "content_block_delta" },
         { type := "content_block_delta" },
         { type := "message_delta",
           usage := some { output_tokens := some 40 } },
         { type := "message_stop" }]
        "claude" "chat" 7 (.resolved 200)).2.map
        (fun r => (r.path, lookupKey r.payload "input_tokens",
                   lookupKey r.payload "output_tokens")) =
      [("/api/ingest", some (.num 100), some (.num 40))] := by
  refine ⟨?_, ?_, ?_, ?_⟩
  · simp [wrapAnthropicStream, wrapAnthropicStreamGo_eq]
  · cases outcome <;>
      simp [wrapAnthropicStream, wrapAnthropicStreamGo_eq, sendTelemetry,
        fetchResult, hE, specAnthropicTokens, lookupKey, List.find?]
  · rfl
  · rfl

/-- Witness for C6 at a concrete input. -/
theorem C6_anthropic_stream_passthrough_usage_witness :
    (wrapAnthropicStream defaultConfig [] "m" "t" 0 (.resolved 200)).1 = [] :=
  (C6_anthropic_stream_passthrough_usage [] defaultConfig "m" "t" 0
    (.resolved 200) rfl).1

/-- C5: For every stream that never reports usage (the provider omitted
the usage fields, or the stream ended early), telemetry is still emitted
exactly once when consumption stops, with `input_tokens` and
`output_tokens` at their last-known values (0 if never reported); missing
or partial usage is not treated as an error. -/
theorem C5_stream_without_usage_zero_filled
    (chunks : List OpenAIChunk) (events : List AnthropicEvent)
    (model tag : String) (latency : Nat) (cfg : AgentracerConfig)
    (outcome : FetchOutcome)
    (hC : ∀ c ∈ chunks, c.usage = none)
    (hA : ∀ e ∈ events, e.message = none ∧ e.usage = none)
    (hE : cfg.enabled = true) :
    (wrapOpenAIStream chunks model tag latency).2.length = 1 ∧
    (wrapOpenAIStream chunks model tag latency).2.map
        (fun t => (t.inputTokens, t.outputTokens)) = [(0, 0)] ∧
    (wrapAnthropicStream cfg events model tag latency outcome).2.map
        (fun r => (r.path, lookupKey r.payload "input_tokens",
                   lookupKey r.payload "output_tokens")) =
      [("/api/ingest", some (.num 0), some (.num 0))] := by
  refine ⟨by simp [wrapOpenAIStream], ?_, ?_⟩
  · simp [wrapOpenAIStream, wrapOpenAIStreamGo_eq,
      specLastPopulatedUsage_eq_none chunks hC]
  · cases outcome <;>
      simp [wrapAnthropicStream, wrapAnthropicStreamGo_eq, sendTelemetry,
        fetchResult, hE, lookupKey, List.find?,
        specLastStartUsage_eq_none events (fun e he => (hA e he).1),
        specLastDeltaUsage_eq_none events (fun e he => (hA e he).2)]

/-- Witness for C5 at a concrete input: a stream that ended after two
content chunks without ever reporting usage. -/
theorem C5_stream_without_usage_zero_filled_witness :
    (wrapOpenAIStream [{ delta := "a" }, { delta := "b" }] "gpt-4o" "chat"
        3).2.map (fun t => (t.inputTokens, t.outputTokens)) = [(0, 0)] :=
  (C5_stream_without_usage_zero_filled
    [{ delta := "a" }, { delta := "b" }]
    [{ type := "content_block_delta" }] "gpt-4o" "chat" 3 defaultConfig
    (.rejected "network") (by decide) (by decide) rfl).2.1

/-- C9: For every sequence of `init` calls, the resulting config equals
the built-in defaults (environment="production",
host="https://api.agentracer.dev", debug=false, enabled=true) overridden
left-to-right by each call's supplied fields only; fields omitted from a
call retain their previous values, and `getConfig` returns the current
merged snapshot. -/
theorem C9_init_merge_left_to_right (calls : List InitOptions) :
    (calls.foldl init defaultConfig).environment =
      (specLastSupplied (fun o => o.environment) calls).getD "production" ∧
    (calls.foldl init defaultConfig).host =
      (specLastSupplied (fun o => o.host) calls).getD
        "https://api.agentracer.dev" ∧
    (calls.foldl init defaultConfig).debug =
      (specLastSupplied (fun o => o.debug) calls).getD false ∧
    (calls.foldl init defaultConfig).enabled =
      (specLastSupplied (fun o => o.enabled) calls).getD true ∧
    (calls.foldl init defaultConfig).trackerApiKey =
      (specLastSupplied (fun o => some o.trackerApiKey) calls).getD "" ∧
    (calls.foldl init defaultConfig).projectId =
      (specLastSupplied (fun o => some o.projectId) calls).getD "" ∧
    getConfig (calls.foldl init defaultConfig) = calls.foldl init defaultConfig :=
  ⟨foldl_init_lastSupplied (fun c => c.environment) (fun o => o.environment)
      (fun _ _ => rfl) calls defaultConfig,
   foldl_init_lastSupplied (fun c => c.host) (fun o => o.host)
      (fun _ _ => rfl) calls defaultConfig,
   foldl_init_lastSupplied (fun c => c.debug) (fun o => o.debug)
      (fun _ _ => rfl) calls defaultConfig,
   foldl_init_lastSupplied (fun c => c.enabled) (fun o => o.enabled)
      (fun _ _ => rfl) calls defaultConfig,
   foldl_init_lastSupplied (fun c => c.trackerApiKey)
      (fun o => some o.trackerApiKey) (fun _ _ => rfl) calls defaultConfig,
   foldl_init_lastSupplied (fun c => c.projectId)
      (fun o => some o.projectId) (fun _ _ => rfl) calls defaultConfig,
   rfl⟩

lemma emit_outcome_irrel (s : SdkState) (o₁ o₂ : FetchOutcome)
    (path : String) (payload : Payload) :
    emit s o₁ path payload = emit s o₂ path payload := by
  cases o₁ <;> cases o₂ <;> simp [emit, fetchResult]

lemma track_outcome_irrel (s : SdkState) (o₁ o₂ : FetchOutcome)
    (o : TrackOptions) : track s o₁ o = track s o₂ o := by
  unfold track
  cases s.activeRun <;> cases ho : o.runId <;>
    simp only [emit_outcome_irrel _ o₁ o₂]

/-- C4: For every payload and every outcome of the underlying POST
(network rejection, timeout, non-2xx response — the status is not even
inspected), `sendTelemetry` resolves successfully and never raises to its
caller; when the `enabled` config flag is false it performs no send at
all; consequently a wrapped provider call whose telemetry POST rejects
still returns its normal result and does not raise. -/
theorem C4_sendTelemetry_silent (cfg : AgentracerConfig) (payload : Payload)
    (outcome o₁ o₂ : FetchOutcome) (s : SdkState) (params : OpenAIParams)
    (resp : OpenAIResponse) (latency : Nat) :
    (sendTelemetry cfg payload outcome).1 = .ok () ∧
    (cfg.enabled = false → (sendTelemetry cfg payload outcome).2 = []) ∧
    sendTelemetry cfg payload o₁ = sendTelemetry cfg payload o₂ ∧
    (params.stream = false →
      (openaiChatCreate s o₁ params (.ok resp) latency).2.1 = .ok resp) ∧
    openaiChatCreate s o₁ params (.ok resp) latency =
      openaiChatCreate s o₂ params (.ok resp) latency := by
  refine ⟨?_, ?_, ?_, ?_, ?_⟩
  · cases outcome <;> by_cases h : cfg.enabled = false <;>
      simp [sendTelemetry, fetchResult, h]
  · intro h; simp [sendTelemetry, h]
  · cases o₁ <;> cases o₂ <;> by_cases h : cfg.enabled = false <;>
      simp [sendTelemetry, fetchResult, h]
  · intro hs; simp [openaiChatCreate, hs]
  · simp only [openaiChatCreate, track_outcome_irrel _ o₁ o₂]

/-- Witness for C4 at a concrete input: a rejected POST still resolves,
and the wrapped call still returns its response. -/
theorem C4_sendTelemetry_silent_witness :
    (sendTelemetry defaultConfig [("model", .str "gpt-4o")]
      (.rejected "network down")).1 = .ok () :=
  (C4_sendTelemetry_silent defaultConfig [("model", .str "gpt-4o")]
    (.rejected "network down") (.rejected "network down") (.resolved 200)
    { config := defaultConfig } { model := "gpt-4o" } { } 1).1

/-- C2 counterexample: a Gemini `generateContent` call carrying the
explicit (but falsy) parameter `feature_tag: ""` is NOT stripped — the
`feature_tag` key is forwarded to the underlying model — and the
telemetry tag is the ambient one ("ctx"), not the explicit `""`. -/
theorem C2_gemini_falsy_tag_counterexample :
    (extractFeatureTag { feature_tag := some "", contents := "hello" }
      (some "ctx")).2.feature_tag = some "" ∧
    (extractFeatureTag { feature_tag := some "", contents := "hello" }
      (some "ctx")).1 = "ctx" ∧
    (geminiGenerateContent
        { config := defaultConfig, ambientTag := some "ctx" }
        (.resolved 200) "gemini-pro" { feature_tag := some "", contents := "hello" }
        (.ok { }) 1).2.2.feature_tag = some "" ∧
    ((geminiGenerateContent
        { config := defaultConfig, ambientTag := some "ctx" }
        (.resolved 200) "gemini-pro" { feature_tag := some "", contents := "hello" }
        (.ok { }) 1).1.sent.map (fun r => lookupKey r.payload "feature_tag")) =
      [some (.str "ctx")] := by
  refine ⟨rfl, rfl, rfl, rfl⟩

/-- C2 (amended): explicit `feature_tag` takes precedence over the
ambient tag, the ambient tag over "unknown"; the OpenAI adapter always
strips the `feature_tag` key and forwards all other parameters unchanged,
and its telemetry payload carries the resolved tag; the Gemini adapter
does the same whenever the explicit tag is truthy (non-empty), but
treats a falsy explicit tag as absent — the parameter object is then
forwarded unchanged and the ambient/"unknown" tag is used. -/
theorem C2_feature_tag_resolution (params : OpenAIParams)
    (gp : GeminiParams) (amb : Option String) (t a : String)
    (s : SdkState) (outcome : FetchOutcome) (resp : OpenAIResponse)
    (gres : GeminiResult) (modelName : String) (latency : Nat)
    (hs : params.stream = false) (hR : s.activeRun = none)
    (hE : s.config.enabled = true) :
    ((openaiForwarded params).feature_tag = none ∧
     (openaiForwarded params).model = params.model ∧
     (openaiForwarded params).stream = params.stream ∧
     (openaiForwarded params).messages = params.messages ∧
     (params.stream = false →
       (openaiForwarded params).stream_options = params.stream_options)) ∧
    (params.feature_tag = some t → openaiResolvedTag params amb = t) ∧
    (params.feature_tag = none →
      openaiResolvedTag params (some a) = a ∧
      openaiResolvedTag params none = "unknown") ∧
    ((openaiChatCreate s outcome params (.ok resp) latency).1.sent.drop
        s.sent.length).map (fun r => lookupKey r.payload "feature_tag") =
      [some (.str (openaiResolvedTag params s.ambientTag))] ∧
    (openaiChatCreate s outcome params (.ok resp) latency).2.2 =
      openaiForwarded params ∧
    (gp.feature_tag = some t → t ≠ "" →
      extractFeatureTag gp amb = (t, { gp with feature_tag := none })) ∧
    (gp.feature_tag = none →
      extractFeatureTag gp amb = (amb.getD "unknown", gp)) ∧
    ((geminiGenerateContent s outcome modelName gp (.ok gres) latency).1.sent.drop
        s.sent.length).map (fun r => lookupKey r.payload "feature_tag") =
      [some (.str (extractFeatureTag gp s.ambientTag).1)] ∧
    (geminiGenerateContent s outcome modelName gp (.ok gres) latency).2.2 =
      (extractFeatureTag gp s.ambientTag).2 := by
  refine ⟨⟨?_, ?_, ?_, ?_, ?_⟩, ?_, ?_, ?_, ?_, ?_, ?_, ?_, ?_⟩
  · simp [openaiForwarded]
    by_cases h : params.stream <;> simp [h]
  · by_cases h : params.stream <;> simp [openaiForwarded, h]
  · by_cases h : params.stream <;> simp [openaiForwarded, h]
  · by_cases h : params.stream <;> simp [openaiForwarded, h]
  · intro h; simp [openaiForwarded, h]
  · intro h; simp [openaiResolvedTag, h]
  · intro h; simp [openaiResolvedTag, h]
  · cases outcome <;>
      simp [openaiChatCreate, hs, track, hR, emit, fetchResult, hE,
        trackIngestPayload, lookupKey, List.find?]
  · simp [openaiChatCreate, hs]
  · intro h ht; simp [extractFeatureTag, h, ht]
  · intro h; simp [extractFeatureTag, h]
  · cases outcome <;>
      simp [geminiGenerateContent, track, hR, emit, fetchResult, hE,
        trackIngestPayload, lookupKey, List.find?]
  · cases outcome <;> simp [geminiGenerateContent, track, hR, emit,
      fetchResult, hE]

/-- Witness for C2 at concrete inputs. -/
theorem C2_feature_tag_resolution_witness :
    (openaiForwarded { model := "gpt-4o", feature_tag := some "x" }).feature_tag
      = none :=
  (C2_feature_tag_resolution { model := "gpt-4o", feature_tag := some "x" }
    { contents := "c" } (some "y") "x" "y" { config := defaultConfig }
    (.resolved 200) { } { } "gemini-pro" 2 rfl rfl rfl).1.1

/-- C3: For every non-streaming adapter call in which the wrapped
provider client raises, exactly one telemetry event is sent with
`success:false`, `input_tokens:0`, `output_tokens:0`, and `error_type`
derived from the raised error's category name (falling back to a generic
label when none is recognizable), and then the original error object is
re-raised to the caller unchanged — the adapter never swallows or wraps
the provider error. -/
theorem C3_provider_error_telemetry_then_rethrow (s : SdkState)
    (outcome : FetchOutcome) (params : OpenAIParams) (err : JSError)
    (latency : Nat) (modelName : String) (gp : GeminiParams)
    (hs : params.stream = false) (hR : s.activeRun = none)
    (hE : s.config.enabled = true) :
    (openaiChatCreate s outcome params (.error err) latency).2.1 =
      .error err ∧
    (openaiChatCreate s outcome params (.error err) latency).1.sent.length =
      s.sent.length + 1 ∧
    ((openaiChatCreate s outcome params (.error err) latency).1.sent.drop
        s.sent.length).map (fun r =>
          (r.path, lookupKey r.payload "success",
           lookupKey r.payload "input_tokens",
           lookupKey r.payload "output_tokens",
           lookupKey r.payload "error_type")) =
      [("/api/ingest", some (.bool false), some (.num 0), some (.num 0),
        some (.str (err.ctorName.getD "Error")))] ∧
    (geminiGenerateContent s outcome modelName gp (.error err) latency).2.1 =
      .error err ∧
    (geminiGenerateContent s outcome modelName gp (.error err)
        latency).1.sent.length = s.sent.length + 1 ∧
    ((geminiGenerateContent s outcome modelName gp (.error err)
        latency).1.sent.drop s.sent.length).map (fun r =>
          (r.path, lookupKey r.payload "success",
           lookupKey r.payload "input_tokens",
           lookupKey r.payload "output_tokens",
           lookupKey r.payload "error_type")) =
      [("/api/ingest", some (.bool false), some (.num 0), some (.num 0),
        some (.str (err.ctorName.getD "Error")))] := by
  refine ⟨?_, ?_, ?_, ?_, ?_, ?_⟩
  · simp [openaiChatCreate, hs]
  · cases outcome <;>
      simp [openaiChatCreate, hs, track, hR, emit, fetchResult, hE]
  · cases outcome <;>
      simp [openaiChatCreate, hs, track, hR, emit, fetchResult, hE,
        trackIngestPayload, lookupKey, List.find?]
  · simp [geminiGenerateContent]
  · cases outcome <;>
      simp [geminiGenerateContent, track, hR, emit, fetchResult, hE]
  · cases outcome <;>
      simp [geminiGenerateContent, track, hR, emit, fetchResult, hE,
        trackIngestPayload, lookupKey, List.find?]

/-- Witness for C3 at a concrete input: a client throwing a
`RateLimitError` is re-raised unchanged. -/
theorem C3_provider_error_telemetry_then_rethrow_witness :
    (openaiChatCreate { config := defaultConfig } (.resolved 500)
        { model := "gpt-4o" }
        (.error { ctorName := some "RateLimitError" }) 9).2.1 =
      .error { ctorName := some "RateLimitError" } :=
  (C3_provider_error_telemetry_then_rethrow { config := defaultConfig }
    (.resolved 500) { model := "gpt-4o" }
    { ctorName := some "RateLimitError" } 9 "gemini-pro" { } rfl rfl rfl).1

/-- C7 counterexample: with a caller-supplied
`stream_options: { include_usage: false, ... }` — `include_usage` already
present — the adapter still overwrites it to `true` instead of leaving
it as supplied. -/
theorem C7_include_usage_overwrite_counterexample :
    ({ model := "gpt-4o", stream := true,
       stream_options := some { include_usage := some false, other := some "x" } } :
      OpenAIParams).stream_options.map StreamOptions.include_usage =
      some (some false) ∧
    (openaiForwarded
      { model := "gpt-4o", stream := true,
        stream_options := some { include_usage := some false, other := some "x" } }).stream_options =
      some { include_usage := some true, other := some "x" } :=
  ⟨rfl, rfl⟩

/-- C7 (amended): for every OpenAI streaming call, the adapter sets
`stream_options.include_usage = true` in the forwarded parameters —
creating `stream_options` when absent and overwriting any caller-supplied
`include_usage` value — while preserving the other fields of a
caller-supplied `stream_options` object, before delegating to the real
client. -/
theorem C7_stream_options_include_usage (params : OpenAIParams)
    (hs : params.stream = true) :
    (openaiForwarded params).stream_options.map StreamOptions.include_usage =
      some (some true) ∧
    (openaiForwarded params).stream_options.map StreamOptions.other =
      some ((params.stream_options.map StreamOptions.other).getD none) ∧
    (params.stream_options = none →
      (openaiForwarded params).stream_options =
        some { include_usage := some true }) ∧
    (openaiForwarded params).feature_tag = none ∧
    (openaiForwarded params).model = params.model ∧
    (openaiForwarded params).messages = params.messages ∧
    (openaiForwarded params).stream = true := by
  refine ⟨?_, ?_, ?_, ?_, ?_, ?_, ?_⟩ <;>
    cases h : params.stream_options <;>
      simp [openaiForwarded, mergedStreamOptions, hs, h]

/-- Witness for C7 at a concrete input: caller-supplied `stream_options`
with another field, which is preserved while `include_usage` is set. -/
theorem C7_stream_options_include_usage_witness :
    (openaiForwarded
      { model := "gpt-4o", stream := true,
        stream_options := some { other := some "keep" } }).stream_options.map
      StreamOptions.include_usage = some (some true) :=
  (C7_stream_options_include_usage
    { model := "gpt-4o", stream := true,
      stream_options := some { other := some "keep" } } rfl).1

/-- C10: For every call to `track` in which `errorType` and `endUserId`
are not supplied and no `run_id`/`step_index` is resolved (no active run
and none supplied), the emitted ingest payload contains no `error_type`,
`end_user_id`, `run_id`, or `step_index` keys at all (they are omitted
rather than sent as null), while `cached_tokens` (default 0) and
`success` (default true) are always present. -/
theorem C10_track_omits_unset_optional_keys (s : SdkState)
    (outcome : FetchOutcome) (o : TrackOptions)
    (hErr : o.errorType = none) (hUid : o.endUserId = none)
    (hRun : s.activeRun = none) (hRid : o.runId = none)
    (hSid : o.stepIndex = none) (hCt : o.cachedTokens = none)
    (hSc : o.success = none) (hE : s.config.enabled = true) :
    (track s outcome o).sent =
      s.sent ++ [⟨"/api/ingest",
        trackIngestPayload s.config s.ambientTag o none none⟩] ∧
    (trackIngestPayload s.config s.ambientTag o none none).map Prod.fst =
      ["project_id", "provider", "model", "feature_tag", "input_tokens",
       "output_tokens", "cached_tokens", "latency_ms", "success",
       "environment"] ∧
    lookupKey (trackIngestPayload s.config s.ambientTag o none none)
      "cached_tokens" = some (.num 0) ∧
    lookupKey (trackIngestPayload s.config s.ambientTag o none none)
      "success" = some (.bool true) := by
  refine ⟨?_, ?_, ?_, ?_⟩
  · cases outcome <;>
      simp [track, hRun, hRid, hSid, emit, fetchResult, hE]
  · simp [trackIngestPayload, hErr, hUid]
  · simp [trackIngestPayload, hErr, hUid, hCt, lookupKey, List.find?]
  · simp [trackIngestPayload, hErr, hUid, hSc, lookupKey, List.find?]

/-- Witness for C10 at a concrete input. -/
theorem C10_track_omits_unset_optional_keys_witness :
    (trackIngestPayload defaultConfig none
      { model := "gpt-4o", inputTokens := 3, outputTokens := 4,
        latencyMs := 5 } none none).map Prod.fst =
      ["project_id", "provider", "model", "feature_tag", "input_tokens",
       "output_tokens", "cached_tokens", "latency_ms", "success",
       "environment"] :=
  (C10_track_omits_unset_optional_keys { config := defaultConfig }
    (.resolved 200)
    { model := "gpt-4o", inputTokens := 3, outputTokens := 4,
      latencyMs := 5 } rfl rfl rfl rfl rfl rfl rfl rfl).2.1

/-- C8: `AgentRun.execute` sends a run-start signal, runs its body inside
the active-run scope nested inside the feature-tag scope, and on success
sends a run-end signal with status "completed"; on failure it sends
run-end with status "failed" plus an error classification and re-raises
the original failure unchanged; two sequential tracked calls inside one
execute produce step indices 1 then 2, both carrying the same `run_id`,
in both the primary payloads and the separate `/api/runs/step`
requests. -/
theorem C8_execute_run_steps_and_signals {α : Type} (s : SdkState)
    (run : ActiveRun) (outcome : FetchOutcome) (o₁ o₂ : TrackOptions)
    (v : α) (e : JSError)
    (hR : s.activeRun = none) (hE : s.config.enabled = true)
    (hStep : run.stepCounter = 0)
    (h₁ : o₁.runId = none) (h₂ : o₂.runId = none)
    (hf₁ : o₁.featureTag = none) (hf₂ : o₂.featureTag = none)
    (he₁ : o₁.errorType = none) (he₂ : o₂.errorType = none)
    (hu₁ : o₁.endUserId = none) (hu₂ : o₂.endUserId = none) :
    (executeRun run (α := α) outcome
        (fun st => (track (track st outcome o₁) outcome o₂, .ok v)) s).2 =
      .ok v ∧
    ((executeRun run (α := α) outcome
        (fun st => (track (track st outcome o₁) outcome o₂, .ok v))
        s).1.sent.drop s.sent.length).map Request.path =
      ["/api/runs/start", "/api/runs/step", "/api/ingest",
       "/api/runs/step", "/api/ingest", "/api/runs/end"] ∧
    (requestsTo "/api/runs/step" ((executeRun run (α := α) outcome
        (fun st => (track (track st outcome o₁) outcome o₂, .ok v))
        s).1.sent.drop s.sent.length)).map
        (fun p => (lookupKey p "run_id", lookupKey p "step_index")) =
      [(some (.str run.runId), some (.num 1)),
       (some (.str run.runId), some (.num 2))] ∧
    (requestsTo "/api/ingest" ((executeRun run (α := α) outcome
        (fun st => (track (track st outcome o₁) outcome o₂, .ok v))
        s).1.sent.drop s.sent.length)).map
        (fun p => (lookupKey p "run_id", lookupKey p "step_index",
                   lookupKey p "feature_tag")) =
      [(some (.str run.runId), some (.num 1), some (.str run.featureTag)),
       (some (.str run.runId), some (.num 2), some (.str run.featureTag))] ∧
    (requestsTo "/api/runs/end" ((executeRun run (α := α) outcome
        (fun st => (track (track st outcome o₁) outcome o₂, .ok v))
        s).1.sent.drop s.sent.length)).map
        (fun p => (lookupKey p "run_id", lookupKey p "status")) =
      [(some (.str run.runId), some (.str "completed"))] ∧
    (executeRun run (α := α) outcome
        (fun st => (track st outcome o₁, .error e)) s).2 = .error e ∧
    (requestsTo "/api/runs/end" ((executeRun run (α := α) outcome
        (fun st => (track st outcome o₁, .error e)) s).1.sent.drop
        s.sent.length)).map
        (fun p => (lookupKey p "status", lookupKey p "error_type")) =
      [(some (.str "failed"), some (.str (e.ctorName.getD "Error")))] := by
  refine ⟨?_, ?_, ?_, ?_, ?_, ?_, ?_⟩ <;>
    cases outcome <;>
      simp [executeRun, withRunScopes, track, emit, fetchResult, hR, hE,
        hStep, h₁, h₂, hf₁, hf₂, he₁, he₂, hu₁, hu₂, requestsTo,
        lookupKey, List.find?, List.drop_left, runStartPayload,
        trackStepPayload, trackIngestPayload]

/-- Witness for C8 at concrete inputs. -/
theorem C8_execute_run_steps_and_signals_witness :
    (executeRun { runId := "r-1", featureTag := "chat" } (α := Nat)
        (.resolved 200)
        (fun st =>
          (track (track st (.resolved 200)
              { model := "gpt-4o", inputTokens := 1, outputTokens := 2,
                latencyMs := 3 }) (.resolved 200)
              { model := "gpt-4o", inputTokens := 4, outputTokens := 5,
                latencyMs := 6 }, .ok 42))
        { config := defaultConfig }).2 = .ok 42 :=
  (C8_execute_run_steps_and_signals { config := defaultConfig }
    { runId := "r-1", featureTag := "chat" } (.resolved 200)
    { model := "gpt-4o", inputTokens := 1, outputTokens := 2,
      latencyMs := 3 }
    { model := "gpt-4o", inputTokens := 4, outputTokens := 5,
      latencyMs := 6 } 42 { ctorName := some "TypeError" }
    rfl rfl rfl rfl rfl rfl rfl rfl rfl rfl rfl).1

end Agentracer
